import Mathlib

set_option maxRecDepth 8000

namespace Bookyard

/-!
Verification development for the Bookyard repository: a book CRUD frontend
(React, `src/frontend`) backed by a user-based collaborative-filtering
recommendation core.  The frontend helpers below are translated directly from
the JavaScript sources; the recommendation core, whose Python sources are not
part of this tree, is modelled from the specification where noted.
-/

/-! ### JavaScript string primitives

Character-level models of the JS string operations used by the frontend:
`toLowerCase`, `trim`, substring search (`String.prototype.includes`), and the
case-insensitive literal split performed by `HighlightText`.
-/

/-- Model of JS `toLowerCase` on a character list (ASCII-faithful). -/
def lowerL (s : List Char) : List Char := s.map Char.toLower

/-- Model of JS `String.prototype.trim`: drop leading and trailing whitespace. -/
def jsTrim (s : List Char) : List Char :=
  ((s.dropWhile Char.isWhitespace).reverse.dropWhile Char.isWhitespace).reverse

/-- The escaped-literal case-insensitive regex of `HighlightText` matches at the
head of `text` exactly when the first `hl.length` characters of `text` equal
`hl` up to case. -/
def matchesAt (hl text : List Char) : Bool :=
  lowerL (text.take hl.length) == lowerL hl

/-- Index of the leftmost case-insensitive occurrence of the literal `hl` in
`text`, as found by the global regex of `HighlightText` (`src/unnamed/part_001`). -/
def findCI (hl : List Char) : List Char → Option Nat
  | [] => none
  | c :: rest =>
    if matchesAt hl (c :: rest) then some 0 else (findCI hl rest).map (· + 1)

/-- Fuelled worker for `splitCI`: JS `text.split(/(escapedHighlight)/gi)`, which
emits the text between matches interleaved with the captured matches. -/
def splitCIF (hl : List Char) : Nat → List Char → List (List Char)
  | 0, text => [text]
  | fuel + 1, text =>
    match findCI hl text with
    | none => [text]
    | some i =>
      text.take i :: (text.drop i).take hl.length ::
        splitCIF hl fuel (text.drop (i + hl.length))

/-- Model of `text.split(new RegExp((escapedHighlight), gi))` from
`HighlightText` (`src/unnamed/part_001` lines 56-59).  `text.length` steps of
fuel suffice because every match of a non-empty highlight consumes at least one
character. -/
def splitCI (hl text : List Char) : List (List Char) := splitCIF hl text.length text

/-- The `HighlightText` component (`src/unnamed/part_001` lines 50-78): on the
guard `!highlight || !highlight.trim() || !text` it renders the bare text,
otherwise it splits case-insensitively on the highlight and marks exactly the
parts whose lowercasing equals the lowercased highlight.  Each rendered segment
is a pair of its text and whether it is wrapped in a mark element. -/
def renderHighlight (text hl : List Char) : List (List Char × Bool) :=
  if hl = [] ∨ jsTrim hl = [] ∨ text = [] then [(text, false)]
  else (splitCI hl text).map (fun part => (part, lowerL part == lowerL hl))

/-! ### Search suggestions (`BooksList.jsx`) -/

/-- Book record as consumed by the `BooksList` page. -/
structure JBook where
  id : Nat
  title : String
  author : String
  isbn : Option String
deriving DecidableEq

/-- Lowercased character view of a JS string. -/
def lowerStr (s : String) : List Char := lowerL s.toList

/-- Model of JS `hay.includes(needle)` on character lists. -/
def containsL (hay needle : List Char) : Bool :=
  (List.range (hay.length + 1)).any fun i => (hay.drop i).take needle.length == needle

/-- Grouped suggestion lists as produced by `generateSuggestions`. -/
structure Suggestions where
  titles : List JBook
  authors : List JBook
  isbns : List JBook
deriving DecidableEq

/-- The author de-duplication loop of `generateSuggestions`
(`BooksList.jsx` lines 203-210): keep the first book per lowercased author. -/
def dedupByAuthor : List JBook → List (List Char) → List JBook
  | [], _ => []
  | b :: rest, seen =>
    if lowerStr b.author ∈ seen then dedupByAuthor rest seen
    else b :: dedupByAuthor rest (lowerStr b.author :: seen)

/-- `generateSuggestions` from `BooksList.jsx` lines 187-217: filter the loaded
books by case-insensitive containment on title, author and isbn (an absent isbn
never matches), de-duplicate authors, and keep the first five of each group. -/
def generateSuggestions (allBooks : List JBook) (query : String) : Suggestions :=
  let lowerQuery := lowerStr query
  let titles := allBooks.filter fun b => containsL (lowerStr b.title) lowerQuery
  let authors := allBooks.filter fun b => containsL (lowerStr b.author) lowerQuery
  let isbns := allBooks.filter fun b =>
    match b.isbn with
    | some s => containsL (lowerStr s) lowerQuery
    | none => false
  { titles := titles.take 5
    authors := (dedupByAuthor authors []).take 5
    isbns := isbns.take 5 }

/-! ### Client-side ownership guard (`api.js`) -/

/-- Result of a `booksAPI.update` / `booksAPI.delete` call as far as the
ownership guard is concerned: either the guard throws before any request is
made, or the HTTP request is issued. -/
inductive ApiResult where
  | errorUnauthorized : ApiResult
  | requestSent : ApiResult
deriving DecidableEq

/-- The locally recorded owners map (`book_owners` in localStorage), read by
`getBookOwners`; `owners[bookId]?.email` is the first matching entry. -/
def ownersLookup (owners : List (Nat × String)) (bookId : Nat) : Option String :=
  (owners.find? fun p => p.1 == bookId).map Prod.snd

/-- JS truthiness of `ownerEmail` (a string or undefined): the empty string and
undefined are falsy. -/
def jsTruthyStr : Option String → Bool
  | none => false
  | some s => !(s == "")

/-- JS strict inequality between `ownerEmail` (string or undefined) and
`currentUserEmail` (string or null): values of different types are never
strictly equal. -/
def jsStrictNeStr : Option String → Option String → Bool
  | some a, some b => !(a == b)
  | some _, none => true
  | none, some _ => true
  | none, none => false

/-- The guard condition `ownerEmail && ownerEmail !== currentUserEmail` of
`booksAPI.update` (`api.js` line 127) and `booksAPI.delete` (line 142). -/
def unauthorized (ownerEmail cur : Option String) : Bool :=
  jsTruthyStr ownerEmail && jsStrictNeStr ownerEmail cur

/-- `booksAPI.update` (`api.js` lines 119-133): throw before the request when
the guard fires, otherwise issue the PUT request. -/
def booksUpdate (owners : List (Nat × String)) (cur : Option String) (bookId : Nat) :
    ApiResult :=
  if unauthorized (ownersLookup owners bookId) cur then .errorUnauthorized
  else .requestSent

/-- `booksAPI.delete` (`api.js` lines 136-155): same guard as `booksUpdate`
before the DELETE request is issued. -/
def booksDelete (owners : List (Nat × String)) (cur : Option String) (bookId : Nat) :
    ApiResult :=
  if unauthorized (ownersLookup owners bookId) cur then .errorUnauthorized
  else .requestSent

/-! ### Data Cleaner -/

/-- Modelled from the spec: raw rating record (section 3) of the backend whose
Python sources (`app/services/dataset_service.py`) are not in this tree; only
the architecture document `src/unnamed/part_004` describes them. -/
structure RawRating where
  user : Nat
  isbn : String
  rating : Nat
deriving DecidableEq

/-- Modelled from the spec: stage (1) of the Data Cleaner, dropping implicit
ratings with value 0 (section 4.2; `src/unnamed/part_004` line 159). -/
def dropZero (rs : List RawRating) : List RawRating :=
  rs.filter fun r => r.rating != 0

/-- Number of remaining ratings by user `u`. -/
def userCount (rs : List RawRating) (u : Nat) : Nat :=
  rs.countP fun r => r.user == u

/-- Number of remaining ratings of book `i`. -/
def bookCount (rs : List RawRating) (i : String) : Nat :=
  rs.countP fun r => r.isbn == i

/-- Modelled from the spec: the Data Cleaner threshold pass (section 4.2;
`src/unnamed/part_004` lines 158-161).  Zero ratings are dropped first, the
per-user and per-book counts are taken once on the remaining set, and ratings
below either threshold are dropped in a single pass. -/
def cleanRatings (rs : List RawRating) (minU minB : Nat) : List RawRating :=
  let pos := dropZero rs
  pos.filter fun r =>
    decide (minU ≤ userCount pos r.user) && decide (minB ≤ bookCount pos r.isbn)

/-- Concrete rating table whose cleaning is not idempotent: after the user
filter removes users 2 and 3, book b1 retains a single rating yet stays. -/
def exRatings : List RawRating :=
  [⟨1, "b1", 8⟩, ⟨1, "b2", 7⟩, ⟨2, "b1", 9⟩, ⟨3, "b2", 6⟩]

/-! ### Dataset snapshot and Recommendation Engine

Modelled from the spec (sections 3 and 4.5): the Python engine
(`app/services/recommendation_engine.py`, described by `src/unnamed/part_004`)
is not in this tree.  A snapshot carries the dense interaction matrix, the
rated mask, the user-id table and the cached user-user similarity matrix; the
similarity entries are left abstract here so that every loaded snapshot is an
instance.
-/

/-- Modelled from the spec: the in-memory snapshot owned by the Dataset
Service (section 3; `src/unnamed/part_004` lines 249-259).  Row and column
indices are the dense zero-based indices of the filtered id sets, and
`userIds` is the row-to-user-id table. -/
structure Snap (α : Type) where
  numUsers : Nat
  numBooks : Nat
  userIds : Fin numUsers → Nat
  ratings : Fin numUsers → Fin numBooks → α
  rated : Fin numUsers → Fin numBooks → Bool
  sim : Fin numUsers → Fin numUsers → α

variable {α : Type} [LinearOrderedField α]

/-- Columns actually rated by user `u` according to the rated mask. -/
def ratedBooks (snap : Snap α) (u : Fin snap.numUsers) : Finset (Fin snap.numBooks) :=
  Finset.univ.filter fun b => snap.rated u b = true

/-- Mean of a matrix row over its rated cells only (spec section 3, UserMean). -/
def matMean {U B : Nat} (M : Fin U → Fin B → α) (R : Fin U → Fin B → Bool)
    (u : Fin U) : α :=
  (∑ b ∈ Finset.univ.filter fun b => R u b = true, M u b) /
    ((Finset.univ.filter fun b => R u b = true).card : α)

/-- Mean-centered matrix (spec section 3, NormalizedMatrix): rated cells have
the user mean subtracted, absent cells are 0. -/
def matNormalized {U B : Nat} (M : Fin U → Fin B → α) (R : Fin U → Fin B → Bool) :
    Fin U → Fin B → α :=
  fun u b => if R u b then M u b - matMean M R u else 0

/-- Per-user mean of a snapshot over rated cells. -/
def userMean (snap : Snap α) (u : Fin snap.numUsers) : α :=
  matMean snap.ratings snap.rated u

/-- Normalized rating of a snapshot cell. -/
def normalized (snap : Snap α) (u : Fin snap.numUsers) (b : Fin snap.numBooks) : α :=
  matNormalized snap.ratings snap.rated u b

/-- Neighbor ordering used for selection (spec section 4.5 step 2): higher
similarity to the target first, ties broken by lower row index, hence by
lower user id. -/
def neighborBefore (snap : Snap α) (t a b : Fin snap.numUsers) : Bool :=
  decide (snap.sim t b < snap.sim t a) ||
    (decide (snap.sim t a = snap.sim t b) && decide (a ≤ b))

/-- All rows other than the target (self excluded, section 4.5 step 2). -/
def otherUsers (snap : Snap α) (t : Fin snap.numUsers) : List (Fin snap.numUsers) :=
  (List.finRange snap.numUsers).filter fun u => u != t

/-- The selected neighbors: the `k` highest-similarity other users, with the
deterministic tie-break of `neighborBefore`. -/
def neighbors (snap : Snap α) (t : Fin snap.numUsers) (k : Nat) :
    List (Fin snap.numUsers) :=
  (List.insertionSort (fun a b => neighborBefore snap t a b = true)
    (otherUsers snap t)).take k

/-- Candidate books (spec section 4.5 step 3): the union of books rated by any
selected neighbor, minus books already rated by the target. -/
def candidates (snap : Snap α) (t : Fin snap.numUsers)
    (nb : List (Fin snap.numUsers)) : List (Fin snap.numBooks) :=
  (List.finRange snap.numBooks).filter fun b =>
    !snap.rated t b && nb.any fun n => snap.rated n b

/-- One returned Recommendation (spec section 3), addressed by dense book
column index; column order equals ascending book-id order for the snapshot. -/
structure Reco (α : Type) (B : Nat) where
  book : Fin B
  predictedRating : α
  supportingNeighbors : Nat
deriving DecidableEq

/-- Weighted prediction for one candidate (spec section 4.5 step 4): target
mean plus the similarity-weighted average of the neighbors' normalized
ratings; a candidate with zero denominator is skipped. -/
def predictOne (snap : Snap α) (t : Fin snap.numUsers)
    (nb : List (Fin snap.numUsers)) (b : Fin snap.numBooks) :
    Option (Reco α snap.numBooks) :=
  let raters := nb.filter fun n => snap.rated n b
  let den := (raters.map fun n => |snap.sim t n|).sum
  if den = 0 then none
  else
    some ⟨b, userMean snap t +
      (raters.map fun n => snap.sim t n * normalized snap n b).sum / den,
      raters.length⟩

/-- Ranking order (spec section 4.5 step 6): predicted rating descending, then
supporting-neighbor count descending, then book column (book id) ascending. -/
def recBefore {B : Nat} (a b : Reco α B) : Bool :=
  decide (b.predictedRating < a.predictedRating) ||
    (decide (a.predictedRating = b.predictedRating) &&
      (decide (b.supportingNeighbors < a.supportingNeighbors) ||
        (decide (a.supportingNeighbors = b.supportingNeighbors) &&
          decide (a.book ≤ b.book))))

/-- Sort recommendations by `recBefore`. -/
def rankRecs {B : Nat} (l : List (Reco α B)) : List (Reco α B) :=
  List.insertionSort (fun a b => recBefore a b = true) l

/-- Error raised when the queried user id is outside the filtered id set. -/
inductive EngineError where
  | unknownUser : EngineError
deriving DecidableEq

/-- Recommendation pipeline for a resolved target row (spec section 4.5 steps
2-7): select neighbors, predict over the candidates, drop predictions below
`minPred`, rank, and return the first `topN`. -/
def recommendFor (snap : Snap α) (t : Fin snap.numUsers) (k topN : Nat)
    (minPred : α) : List (Reco α snap.numBooks) :=
  let nb := neighbors snap t k
  let recs := (candidates snap t nb).filterMap (predictOne snap t nb)
  (rankRecs (recs.filter fun r => decide (minPred ≤ r.predictedRating))).take topN

/-- Modelled from the spec: `recommend(target_user_id, k, top_n)` (section
4.5).  The target id is looked up in the filtered id table; an absent id
signals `UnknownUserError`. -/
def recommend (snap : Snap α) (targetId k topN : Nat) (minPred : α) :
    Except EngineError (List (Reco α snap.numBooks)) :=
  match (List.finRange snap.numUsers).find? (fun u => snap.userIds u == targetId) with
  | none => .error .unknownUser
  | some t => .ok (recommendFor snap t k topN minPred)

/-! ### Similarity Engine

Modelled from the spec (section 4.4): pairwise cosine similarity between the
rows of the normalized matrix, with similarity defined as 0 whenever either
row has zero norm.  The numpy computation is modelled over the reals.
-/

/-- Dot product of two rows of a normalized matrix. -/
noncomputable def dotN {U B : Nat} (N : Fin U → Fin B → ℝ) (i j : Fin U) : ℝ :=
  ∑ b, N i b * N j b

/-- Euclidean norm of a row. -/
noncomputable def normN {U B : Nat} (N : Fin U → Fin B → ℝ) (i : Fin U) : ℝ :=
  Real.sqrt (dotN N i i)

open Classical in
/-- Modelled from the spec: cosine similarity of two rows, defined as 0 rather
than NaN when either row has zero norm (section 4.4). -/
noncomputable def cosineSim {U B : Nat} (N : Fin U → Fin B → ℝ) (i j : Fin U) : ℝ :=
  if normN N i = 0 ∨ normN N j = 0 then 0
  else dotN N i j / (normN N i * normN N j)

/-- Modelled from the spec: the SimilarityMatrix computed at load time from the
interaction matrix and the rated mask (sections 4.3 and 4.4): cosine
similarity over the mean-centered rows. -/
noncomputable def buildSim {U B : Nat} (M : Fin U → Fin B → ℝ)
    (R : Fin U → Fin B → Bool) : Fin U → Fin U → ℝ :=
  cosineSim (matNormalized M R)

/-! ### Dataset Service (orchestrator)

Modelled from the spec (section 4.7): lifecycle states of the singleton
service and the `NotLoadedError` gating of every read operation.
-/

/-- Errors signalled by the service read operations (spec section 7). -/
inductive SvcError where
  | notLoaded : SvcError
  | unknownUser : SvcError
deriving DecidableEq

/-- The four lifecycle states reported by `status()` (spec section 4.7). -/
inductive StateTag where
  | empty : StateTag
  | loading : StateTag
  | ready : StateTag
  | loadFailed : StateTag
deriving DecidableEq

/-- Modelled from the spec: service lifecycle state.  `loading` and
`loadFailed` carry the previous good snapshot when one exists (section 4.7). -/
inductive SvcState (α : Type) where
  | empty : SvcState α
  | loading (prev : Option (Snap α)) : SvcState α
  | ready (snap : Snap α) : SvcState α
  | loadFailed (prev : Option (Snap α)) : SvcState α

/-- The state tag reported by `status()`. -/
def SvcState.tag : SvcState α → StateTag
  | .empty => .empty
  | .loading _ => .loading
  | .ready _ => .ready
  | .loadFailed _ => .loadFailed

/-- Whether the service holds a ready snapshot. -/
def SvcState.isReady : SvcState α → Bool
  | .ready _ => true
  | _ => false

/-- The initial state of the service, before any load (spec section 4.7). -/
def initialState : SvcState α := .empty

/-- Service-level recommendation record with the book addressed by its dense
column index value. -/
structure RecOut (α : Type) where
  book : Nat
  predictedRating : α
  supportingNeighbors : Nat
deriving DecidableEq

/-- Forget the dependent column bound of an engine recommendation. -/
def recoOut {B : Nat} (r : Reco α B) : RecOut α :=
  ⟨r.book.val, r.predictedRating, r.supportingNeighbors⟩

/-- Modelled from the spec: the `recommend` read operation of the service.
Any non-`Ready` state fails with `NotLoadedError` (section 4.7); a ready
service delegates to the engine. -/
def svcRecommend (s : SvcState α) (uid k topN : Nat) (minPred : α) :
    Except SvcError (List (RecOut α)) :=
  match s with
  | .ready snap =>
    match recommend snap uid k topN minPred with
    | .error _ => .error .unknownUser
    | .ok l => .ok (l.map recoOut)
  | _ => .error .notLoaded

/-- Quality report returned by `validate` (spec section 4.6); the exact score
weighting is an implementation choice, modelled here as a capped multiple of
the total supporting-neighbor count. -/
structure QualityReport (α : Type) where
  recommendations : List (RecOut α)
  score : Nat
deriving DecidableEq

/-- Modelled from the spec: the `validate` read operation (sections 4.6 and
4.7), gated on the `Ready` state. -/
def svcValidate (s : SvcState α) (uid topN : Nat) (minPred : α) :
    Except SvcError (QualityReport α) :=
  match s with
  | .ready snap =>
    match recommend snap uid 10 topN minPred with
    | .error _ => .error .unknownUser
    | .ok l =>
      .ok ⟨l.map recoOut, min 100 (10 * (l.map Reco.supportingNeighbors).sum)⟩
  | _ => .error .notLoaded

/-- Modelled from the spec: the `explain` read operation (sections 4.6 and
4.7): per recommended book the contributing neighbors, capped at `showSim`,
ordered by the neighbor ordering (similarity descending). -/
def svcExplain (s : SvcState α) (uid topN showSim : Nat) (minPred : α) :
    Except SvcError (List (RecOut α × List (Nat × α))) :=
  match s with
  | .ready snap =>
    match (List.finRange snap.numUsers).find? (fun u => snap.userIds u == uid) with
    | none => .error .unknownUser
    | some t =>
      let nb := neighbors snap t 10
      .ok ((recommendFor snap t 10 topN minPred).map fun r =>
        (recoOut r,
          ((nb.filter fun n => snap.rated n r.book).take showSim).map fun n =>
            (snap.userIds n, snap.sim t n)))
  | _ => .error .notLoaded

/-- Diagnostic report of `diagnose` (spec section 4.6). -/
structure Diagnosis (α : Type) where
  ratingCount : Nat
  topNeighborSims : List α
  issues : List String
deriving DecidableEq

/-- Modelled from the spec: the `diagnose` read operation (sections 4.6 and
4.7): rating count, top neighbor similarities and named issues for a known
user, `UnknownUserError` otherwise, `NotLoadedError` when not ready. -/
def svcDiagnose (s : SvcState α) (uid : Nat) : Except SvcError (Diagnosis α) :=
  match s with
  | .ready snap =>
    match (List.finRange snap.numUsers).find? (fun u => snap.userIds u == uid) with
    | none => .error .unknownUser
    | some t =>
      let cnt := (ratedBooks snap t).card
      .ok ⟨cnt, (neighbors snap t 5).map fun n => snap.sim t n,
        if cnt < 3 then ["low data density"] else []⟩
  | _ => .error .notLoaded

/-- Modelled from the spec: `status()` always succeeds and reports the current
state together with the snapshot counts (sections 4.7 and 6). -/
def svcStatus (s : SvcState α) : StateTag × Nat × Nat :=
  match s with
  | .ready snap => (.ready, snap.numUsers, snap.numBooks)
  | .empty => (.empty, 0, 0)
  | .loading _ => (.loading, 0, 0)
  | .loadFailed _ => (.loadFailed, 0, 0)

/-! ### Auxiliary definitions for the statements and witnesses -/

/-- Decidable equality on `Except`, needed to evaluate concrete engine runs. -/
instance {ε β : Type} [DecidableEq ε] [DecidableEq β] : DecidableEq (Except ε β) :=
  fun a b =>
    match a, b with
    | .error e, .error f => decidable_of_iff (e = f) (by simp)
    | .ok x, .ok y => decidable_of_iff (x = y) (by simp)
    | .error _, .ok _ => isFalse (by simp)
    | .ok _, .error _ => isFalse (by simp)

/-- The ranking order of spec section 4.5 step 6, as a proposition: predicted
rating descending, ties by supporting-neighbor count descending, then book
column (book id) ascending. -/
def recOrder {B : Nat} (a b : Reco α B) : Prop :=
  b.predictedRating < a.predictedRating ∨
    (a.predictedRating = b.predictedRating ∧
      (b.supportingNeighbors < a.supportingNeighbors ∨
        (a.supportingNeighbors = b.supportingNeighbors ∧ a.book ≤ b.book)))

/-- Concrete two-user snapshot over the rationals: user 10 (row 0) rated book
column 0 only, user 20 (row 1) rated both columns, and the similarity of the
pair is 1. -/
def exSnap : Snap ℚ where
  numUsers := 2
  numBooks := 2
  userIds := fun u => if u = 0 then 10 else 20
  ratings := fun u b => if u = 0 then (if b = 0 then 8 else 0) else (if b = 0 then 8 else 9)
  rated := fun u b => if u = 0 then b = 0 else true
  sim := fun _ _ => 1

/-- The single recommendation produced by `recommend exSnap 10 1 5 5`. -/
def exReco : Reco ℚ exSnap.numBooks := ⟨⟨1, by decide⟩, 17 / 2, 1⟩

/-- Concrete one-user snapshot: user 7 is the only user, so the neighbor set of
any query is empty. -/
def snap1 : Snap ℚ where
  numUsers := 1
  numBooks := 1
  userIds := fun _ => 7
  ratings := fun _ _ => 8
  rated := fun _ _ => true
  sim := fun _ _ => 1

/-- Concrete book record for the suggestion witness. -/
def exBook : JBook := ⟨1, "Dune", "Frank Herbert", some "9780441013593"⟩

/-- Concrete book list for the suggestion witness. -/
def exBooks : List JBook := [exBook]

/-! ## Theorems -/

/-- C7: the Data Cleaner first drops zero ratings, counts per user and per
book once on the remaining set, and filters by the thresholds in one pass.  A
rating survives exactly when it is a non-zero input rating whose user and book
counts, taken over the zero-filtered set, meet the thresholds; and the pass is
not re-applied iteratively: on `exRatings` a second application of the cleaner
shrinks the output further, so the first output is not a fixed point. -/
theorem cleanRatings_single_pass :
    (∀ (rs : List RawRating) (minU minB : Nat) (r : RawRating),
        r ∈ cleanRatings rs minU minB ↔
          r ∈ rs ∧ r.rating ≠ 0 ∧
            minU ≤ userCount (dropZero rs) r.user ∧
            minB ≤ bookCount (dropZero rs) r.isbn) ∧
    cleanRatings (cleanRatings exRatings 2 2) 2 2 ≠ cleanRatings exRatings 2 2 := by
  constructor
  · intro rs minU minB r
    simp only [cleanRatings, dropZero, List.mem_filter, Bool.and_eq_true,
      decide_eq_true_eq, bne_iff_ne, ne_eq]
    tauto
  · decide

/-- C8 counterexample: with a recorded owner email that is the empty string —
which differs from the logged-in user's email — the guard of `booksAPI.update`
and `booksAPI.delete` does not fire, because the empty string is falsy in
JavaScript, and the request is issued. -/
theorem booksUpdate_empty_owner_counterexample :
    ownersLookup [(1, "")] 1 = some "" ∧
    (some "" : Option String) ≠ some "a@b.com" ∧
    booksUpdate [(1, "")] (some "a@b.com") 1 = ApiResult.requestSent ∧
    booksDelete [(1, "")] (some "a@b.com") 1 = ApiResult.requestSent := by
  decide

/-- C8 (amended): `booksAPI.update` and `booksAPI.delete` throw Unauthorized
before issuing the request exactly when the owners map records a non-empty
owner email for the book that is strictly different from the current user's
email; otherwise the request proceeds. -/
theorem booksUpdate_delete_ownership (owners : List (Nat × String))
    (cur : Option String) (bookId : Nat) :
    (booksUpdate owners cur bookId = ApiResult.errorUnauthorized ↔
        ∃ e, ownersLookup owners bookId = some e ∧ e ≠ "" ∧ some e ≠ cur) ∧
    (booksDelete owners cur bookId = ApiResult.errorUnauthorized ↔
        ∃ e, ownersLookup owners bookId = some e ∧ e ≠ "" ∧ some e ≠ cur) := by
  have key : ∀ oe : Option String, unauthorized oe cur = true ↔
      ∃ e, oe = some e ∧ e ≠ "" ∧ some e ≠ cur := by
    intro oe
    cases oe with
    | none => simp [unauthorized, jsTruthyStr]
    | some e =>
      cases cur with
      | none => simp [unauthorized, jsTruthyStr, jsStrictNeStr]
      | some c => simp [unauthorized, jsTruthyStr, jsStrictNeStr]
  constructor
  · rw [booksUpdate, ← key]
    cases h : unauthorized (ownersLookup owners bookId) cur <;> simp [h]
  · rw [booksDelete, ← key]
    cases h : unauthorized (ownersLookup owners bookId) cur <;> simp [h]

/-- C8 witness: a recorded non-empty owner email differing from the current
user's email makes `booksAPI.update` throw Unauthorized. -/
theorem booksUpdate_delete_ownership_witness :
    booksUpdate [(1, "x@y")] (some "z@w") 1 = ApiResult.errorUnauthorized :=
  (booksUpdate_delete_ownership [(1, "x@y")] (some "z@w") 1).1.mpr
    ⟨"x@y", by decide, by decide, by decide⟩

/-- Every book emitted by the author de-duplication loop comes from the input
list. -/
theorem mem_dedupByAuthor {b : JBook} :
    ∀ (l : List JBook) (seen : List (List Char)), b ∈ dedupByAuthor l seen → b ∈ l := by
  intro l
  induction l with
  | nil => intro seen h; simp [dedupByAuthor] at h
  | cons x rest ih =>
    intro seen h
    rw [dedupByAuthor] at h
    by_cases hx : lowerStr x.author ∈ seen
    · rw [if_pos hx] at h
      exact List.mem_cons_of_mem x (ih _ h)
    · rw [if_neg hx] at h
      rcases List.mem_cons.mp h with h | h
      · exact h ▸ List.mem_cons_self x rest
      · exact List.mem_cons_of_mem x (ih _ h)

/-- C10: each suggestion group holds at most five entries, and every entry of
a group matches the query case-insensitively on that group's field (an entry
of the isbn group in particular has an isbn). -/
theorem generateSuggestions_bounds (allBooks : List JBook) (query : String) :
    (generateSuggestions allBooks query).titles.length ≤ 5 ∧
    (generateSuggestions allBooks query).authors.length ≤ 5 ∧
    (generateSuggestions allBooks query).isbns.length ≤ 5 ∧
    (∀ b ∈ (generateSuggestions allBooks query).titles,
        containsL (lowerStr b.title) (lowerStr query) = true) ∧
    (∀ b ∈ (generateSuggestions allBooks query).authors,
        containsL (lowerStr b.author) (lowerStr query) = true) ∧
    (∀ b ∈ (generateSuggestions allBooks query).isbns,
        ∃ s, b.isbn = some s ∧ containsL (lowerStr s) (lowerStr query) = true) := by
  refine ⟨?_, ?_, ?_, ?_, ?_, ?_⟩
  · simp [generateSuggestions, List.length_take]
  · simp [generateSuggestions, List.length_take]
  · simp [generateSuggestions, List.length_take]
  · intro b hb
    simp only [generateSuggestions] at hb
    have h := List.take_subset _ _ hb
    exact (List.mem_filter.mp h).2
  · intro b hb
    simp only [generateSuggestions] at hb
    have h := mem_dedupByAuthor _ _ (List.take_subset _ _ hb)
    exact (List.mem_filter.mp h).2
  · intro b hb
    simp only [generateSuggestions] at hb
    have h := (List.mem_filter.mp (List.take_subset _ _ hb)).2
    cases his : b.isbn with
    | none => rw [his] at h; simp at h
    | some s => rw [his] at h; exact ⟨s, rfl, h⟩

/-- C10 witness: the query matches the concrete title suggestion entry. -/
theorem generateSuggestions_bounds_witness :
    containsL (lowerStr exBook.title) (lowerStr "un") = true :=
  (generateSuggestions_bounds exBooks "un").2.2.2.1 exBook (by decide)

/-- The interleaved split of `HighlightText` concatenates back to the input
text, for any amount of fuel. -/
theorem splitCIF_flatten (hl : List Char) :
    ∀ (fuel : Nat) (text : List Char), (splitCIF hl fuel text).flatten = text := by
  intro fuel
  induction fuel with
  | zero => intro text; simp [splitCIF]
  | succ fuel ih =>
    intro text
    rw [splitCIF]
    cases h : findCI hl text with
    | none => simp
    | some i =>
      simp only [List.flatten_cons, ih]
      have h1 : (text.drop i).drop hl.length = text.drop (i + hl.length) := by
        rw [List.drop_drop, Nat.add_comm]
      rw [← h1, List.take_append_drop, List.take_append_drop]

/-- C9 (amended): for every text and every highlight whose trimmed value is
non-empty, the segments rendered by `HighlightText` concatenate to the input
text character for character, and a segment is marked exactly when its
lowercasing equals the lowercased highlight. -/
theorem renderHighlight_partition (text hl : List Char) (hne : jsTrim hl ≠ []) :
    ((renderHighlight text hl).map Prod.fst).flatten = text ∧
    ∀ seg ∈ renderHighlight text hl, (seg.2 = true ↔ lowerL seg.1 = lowerL hl) := by
  have hlne : hl ≠ [] := by
    intro h
    exact hne (by rw [h]; rfl)
  by_cases htext : text = []
  · subst htext
    have hguard : (hl = [] ∨ jsTrim hl = [] ∨ ([] : List Char) = []) := Or.inr (Or.inr rfl)
    constructor
    · simp [renderHighlight, hguard]
    · intro seg hseg
      rw [renderHighlight, if_pos hguard] at hseg
      rcases List.mem_singleton.mp hseg with rfl
      constructor
      · intro h; cases h
      · intro h
        exfalso
        apply hlne
        have : lowerL hl = [] := h.symm
        simpa [lowerL] using this
  · have hguard : ¬(hl = [] ∨ jsTrim hl = [] ∨ text = []) := by
      push_neg
      exact ⟨hlne, hne, htext⟩
    constructor
    · rw [renderHighlight, if_neg hguard, List.map_map]
      have hcomp : (Prod.fst ∘ fun part : List Char =>
          (part, lowerL part == lowerL hl)) = id := rfl
      rw [hcomp, List.map_id, splitCI, splitCIF_flatten]
    · intro seg hseg
      rw [renderHighlight, if_neg hguard] at hseg
      obtain ⟨part, hmem, heq⟩ := List.mem_map.mp hseg
      rw [← heq]
      simp [beq_iff_eq]

/-- C9 witness: on a concrete text and a highlight with non-empty trim, the
rendered segments partition the text and are marked exactly at the
case-insensitive matches. -/
theorem renderHighlight_partition_witness :
    ((renderHighlight (String.toList "hello World") (String.toList "o w")).map
        Prod.fst).flatten = String.toList "hello World" ∧
    ∀ seg ∈ renderHighlight (String.toList "hello World") (String.toList "o w"),
      (seg.2 = true ↔ lowerL seg.1 = lowerL (String.toList "o w")) :=
  renderHighlight_partition (String.toList "hello World") (String.toList "o w")
    (by decide)

/-- C9 counterexample: the claim fails as stated for a non-empty highlight.
With text and highlight both a single space — a non-empty highlight — the
component takes its early-return path (the trimmed highlight is empty), so the
single rendered segment equals the highlight case-insensitively yet is not
marked. -/
theorem renderHighlight_whitespace_counterexample :
    ([Char.ofNat 32] : List Char) ≠ [] ∧
    renderHighlight [Char.ofNat 32] [Char.ofNat 32] = [([Char.ofNat 32], false)] ∧
    ¬(∀ seg ∈ renderHighlight [Char.ofNat 32] [Char.ofNat 32],
        (seg.2 = true ↔ lowerL seg.1 = lowerL [Char.ofNat 32])) := by
  refine ⟨by decide, by decide, ?_⟩
  intro hall
  have h := hall ([Char.ofNat 32], false) (by decide)
  have : (false = true) := h.mpr rfl
  cases this

/-- A successful prediction reports the candidate book it was computed for. -/
theorem predictOne_book {snap : Snap α} {t : Fin snap.numUsers}
    {nb : List (Fin snap.numUsers)} {b : Fin snap.numBooks}
    {r : Reco α snap.numBooks} (h : predictOne snap t nb b = some r) :
    r.book = b := by
  simp only [predictOne] at h
  split at h
  · exact Option.noConfusion h
  · rw [Option.some.injEq] at h
    rw [← h]

/-- C1: whenever `recommend` succeeds, the target id resolves to a snapshot
row, and every returned Recommendation refers to a book the target has not
rated and that some selected neighbor has rated — the candidate set is the
union of neighbor-rated books minus the target's rated books. -/
theorem recommend_unrated (snap : Snap α) (targetId k topN : Nat) (minPred : α)
    (l : List (Reco α snap.numBooks))
    (h : recommend snap targetId k topN minPred = .ok l) :
    ∃ t, snap.userIds t = targetId ∧
      ∀ r ∈ l, snap.rated t r.book = false ∧
        ∃ n ∈ neighbors snap t k, snap.rated n r.book = true := by
  rcases hf : (List.finRange snap.numUsers).find?
      (fun u => snap.userIds u == targetId) with _ | t
  · rw [recommend, hf] at h
    exact Except.noConfusion h
  · rw [recommend, hf] at h
    have ht : snap.userIds t = targetId := by
      have := List.find?_some hf
      simpa using this
    refine ⟨t, ht, ?_⟩
    rw [Except.ok.injEq] at h
    subst h
    intro r hr
    simp only [recommendFor] at hr
    have h2 := List.take_subset _ _ hr
    simp only [rankRecs] at h2
    rw [List.mem_insertionSort] at h2
    have h3 := (List.mem_filter.mp h2).1
    obtain ⟨b, hbmem, hbsome⟩ := List.mem_filterMap.mp h3
    have hbook := predictOne_book hbsome
    simp only [candidates] at hbmem
    have h4 := (List.mem_filter.mp hbmem).2
    rw [Bool.and_eq_true, Bool.not_eq_true', List.any_eq_true] at h4
    obtain ⟨hrt, n, hn, hp⟩ := h4
    exact ⟨by rw [hbook]; exact hrt, n, hn, by rw [hbook]; exact hp⟩

/-- C1 witness: on the concrete snapshot `exSnap`, the run
`recommend exSnap 10 1 5 5` succeeds with `[exReco]`, and the returned book is
unrated by the target and rated by the selected neighbor. -/
theorem recommend_unrated_witness :
    ∃ t, exSnap.userIds t = 10 ∧
      ∀ r ∈ [exReco], exSnap.rated t r.book = false ∧
        ∃ n ∈ neighbors exSnap t 1, exSnap.rated n r.book = true :=
  recommend_unrated exSnap 10 1 5 5 [exReco] (by with_unfolding_all decide)

/-- C3: `recommend` signals `UnknownUserError` exactly for an id outside the
filtered id table: a missing id yields the error, a present id always yields
an ok list, a known user who is the only user — hence with an empty neighbor
set — receives the empty sequence rather than a failure, and so does a known
user for whom no candidate survives the prediction and threshold filtering. -/
theorem recommend_unknown_or_empty (snap : Snap α) (targetId k topN : Nat)
    (minPred : α) :
    ((∀ u, snap.userIds u ≠ targetId) →
        recommend snap targetId k topN minPred = .error .unknownUser) ∧
    ((∃ t, snap.userIds t = targetId) →
        ∃ l, recommend snap targetId k topN minPred = .ok l) ∧
    (snap.numUsers = 1 → ∀ t : Fin snap.numUsers, snap.userIds t = targetId →
        recommend snap targetId k topN minPred = .ok []) ∧
    ((∃ t, snap.userIds t = targetId) →
      (∀ t : Fin snap.numUsers, snap.userIds t = targetId →
        ((candidates snap t (neighbors snap t k)).filterMap
            (predictOne snap t (neighbors snap t k))).filter
          (fun r => decide (minPred ≤ r.predictedRating)) = []) →
      recommend snap targetId k topN minPred = .ok []) := by
  refine ⟨?_, ?_, ?_, ?_⟩
  · intro hall
    have hf : (List.finRange snap.numUsers).find?
        (fun u => snap.userIds u == targetId) = none := by
      rw [List.find?_eq_none]
      intro u _
      simp [hall u]
    rw [recommend, hf]
  · rintro ⟨t, ht⟩
    have hs : ((List.finRange snap.numUsers).find?
        (fun u => snap.userIds u == targetId)).isSome := by
      rw [List.find?_isSome]
      exact ⟨t, List.mem_finRange t, by simp [ht]⟩
    obtain ⟨t0, hf⟩ := Option.isSome_iff_exists.mp hs
    exact ⟨_, by rw [recommend, hf]⟩
  · intro hU t ht
    have hs : ((List.finRange snap.numUsers).find?
        (fun u => snap.userIds u == targetId)).isSome := by
      rw [List.find?_isSome]
      exact ⟨t, List.mem_finRange t, by simp [ht]⟩
    obtain ⟨t0, hf⟩ := Option.isSome_iff_exists.mp hs
    have huniq : ∀ u : Fin snap.numUsers, u = t0 := by
      intro u
      apply Fin.ext
      have h1 := u.isLt
      have h2 := t0.isLt
      omega
    have hothers : otherUsers snap t0 = [] := by
      rw [otherUsers, List.filter_eq_nil_iff]
      intro u _
      simp [huniq u]
    have hnb : neighbors snap t0 k = [] := by
      rw [neighbors, hothers]
      simp
    have hcand : candidates snap t0 [] = [] := by
      rw [candidates, List.filter_eq_nil_iff]
      intro b _
      simp
    rw [recommend, hf]
    simp [recommendFor, hnb, hcand, rankRecs]
  · rintro ⟨t, ht⟩ hall
    have hs : ((List.finRange snap.numUsers).find?
        (fun u => snap.userIds u == targetId)).isSome := by
      rw [List.find?_isSome]
      exact ⟨t, List.mem_finRange t, by simp [ht]⟩
    obtain ⟨t0, hf⟩ := Option.isSome_iff_exists.mp hs
    have ht0 : snap.userIds t0 = targetId := by
      have := List.find?_some hf
      simpa using this
    have hsurv := hall t0 ht0
    rw [recommend, hf]
    simp [recommendFor, hsurv, rankRecs]

/-- C3 witness: on the one-user snapshot `snap1`, an unknown id 99 signals
`UnknownUserError`, while the known id 7 — whose neighbor set is empty —
receives the empty sequence; and on `exSnap`, where the known user 10 has a
neighbor but the single candidate prediction 8.5 falls below the threshold
100, no candidate survives filtering and the result is again the empty
sequence. -/
theorem recommend_unknown_or_empty_witness :
    recommend snap1 99 3 3 (0 : ℚ) = .error .unknownUser ∧
    recommend snap1 7 3 3 (0 : ℚ) = .ok [] ∧
    recommend exSnap 10 1 5 (100 : ℚ) = .ok [] :=
  ⟨(recommend_unknown_or_empty snap1 99 3 3 0).1 (by decide),
   (recommend_unknown_or_empty snap1 7 3 3 0).2.2.1 rfl ⟨0, by decide⟩ (by decide),
   (recommend_unknown_or_empty exSnap 10 1 5 100).2.2.2 ⟨⟨0, by decide⟩, by decide⟩
     (by with_unfolding_all decide)⟩

/-- The executable ranking test agrees with the ranking order proposition. -/
theorem recBefore_iff {B : Nat} (a b : Reco α B) :
    recBefore a b = true ↔ recOrder a b := by
  simp [recBefore, recOrder]

/-- The ranking order is total. -/
theorem recOrder_total {B : Nat} (a b : Reco α B) : recOrder a b ∨ recOrder b a := by
  rcases lt_trichotomy a.predictedRating b.predictedRating with h | h | h
  · exact Or.inr (Or.inl h)
  · rcases lt_trichotomy a.supportingNeighbors b.supportingNeighbors with h2 | h2 | h2
    · exact Or.inr (Or.inr ⟨h.symm, Or.inl h2⟩)
    · rcases le_total a.book b.book with h3 | h3
      · exact Or.inl (Or.inr ⟨h, Or.inr ⟨h2, h3⟩⟩)
      · exact Or.inr (Or.inr ⟨h.symm, Or.inr ⟨h2.symm, h3⟩⟩)
    · exact Or.inl (Or.inr ⟨h, Or.inl h2⟩)
  · exact Or.inl (Or.inl h)

/-- The ranking order is transitive. -/
theorem recOrder_trans {B : Nat} (a b c : Reco α B)
    (hab : recOrder a b) (hbc : recOrder b c) : recOrder a c := by
  rcases hab with h1 | ⟨h1, h2⟩ <;> rcases hbc with h3 | ⟨h3, h4⟩
  · exact Or.inl (lt_trans h3 h1)
  · exact Or.inl (h3 ▸ h1)
  · exact Or.inl (h1 ▸ h3)
  · refine Or.inr ⟨h1.trans h3, ?_⟩
    rcases h2 with h5 | ⟨h5, h6⟩ <;> rcases h4 with h7 | ⟨h7, h8⟩
    · exact Or.inl (Nat.lt_trans h7 h5)
    · exact Or.inl (h7 ▸ h5)
    · exact Or.inl (h5 ▸ h7)
    · exact Or.inr ⟨h5.trans h7, le_trans h6 h8⟩

/-- C5: whenever `recommend` succeeds, every returned Recommendation has
predicted rating at least `minPred` (5.0 by default), and the returned
sequence is ordered by predicted rating descending with ties broken by
supporting-neighbor count descending and then book id ascending. -/
theorem recommend_filter_sorted (snap : Snap α) (targetId k topN : Nat)
    (minPred : α) (l : List (Reco α snap.numBooks))
    (h : recommend snap targetId k topN minPred = .ok l) :
    (∀ r ∈ l, minPred ≤ r.predictedRating) ∧ l.Pairwise recOrder := by
  rcases hf : (List.finRange snap.numUsers).find?
      (fun u => snap.userIds u == targetId) with _ | t
  · rw [recommend, hf] at h
    exact Except.noConfusion h
  · rw [recommend, hf, Except.ok.injEq] at h
    subst h
    constructor
    · intro r hr
      simp only [recommendFor] at hr
      have h2 := List.take_subset _ _ hr
      simp only [rankRecs] at h2
      rw [List.mem_insertionSort] at h2
      have h3 := (List.mem_filter.mp h2).2
      exact of_decide_eq_true h3
    · simp only [recommendFor, rankRecs]
      haveI : IsTotal (Reco α snap.numBooks) (fun a b => recBefore a b = true) :=
        ⟨fun a b => by
          rw [recBefore_iff, recBefore_iff]
          exact recOrder_total a b⟩
      haveI : IsTrans (Reco α snap.numBooks) (fun a b => recBefore a b = true) :=
        ⟨fun a b c hab hbc => by
          rw [recBefore_iff] at hab hbc ⊢
          exact recOrder_trans a b c hab hbc⟩
      have hsorted := List.sorted_insertionSort
        (fun a b : Reco α snap.numBooks => recBefore a b = true)
        (((candidates snap t (neighbors snap t k)).filterMap
            (predictOne snap t (neighbors snap t k))).filter
          fun r => decide (minPred ≤ r.predictedRating))
      exact (hsorted.imp fun h => (recBefore_iff _ _).mp h).sublist
        (List.take_sublist _ _)

/-- C5 witness: the concrete run `recommend exSnap 10 1 5 5` returns a list
whose single entry meets the 5.0 threshold and which is ordered. -/
theorem recommend_filter_sorted_witness :
    (∀ r ∈ [exReco], (5 : ℚ) ≤ r.predictedRating) ∧
    ([exReco] : List (Reco ℚ exSnap.numBooks)).Pairwise recOrder :=
  recommend_filter_sorted exSnap 10 1 5 5 [exReco] (by with_unfolding_all decide)

/-- The dot product of normalized rows is symmetric. -/
theorem dotN_comm {U B : Nat} (N : Fin U → Fin B → ℝ) (i j : Fin U) :
    dotN N i j = dotN N j i :=
  Finset.sum_congr rfl fun _ _ => mul_comm _ _

/-- Cosine similarity is symmetric in its two rows. -/
theorem cosineSim_comm {U B : Nat} (N : Fin U → Fin B → ℝ) (i j : Fin U) :
    cosineSim N i j = cosineSim N j i := by
  unfold cosineSim
  split_ifs with h1 h2 h2
  · rfl
  · exact absurd h1.symm h2
  · exact absurd h2.symm h1
  · rw [dotN_comm, mul_comm]

/-- C2: for every load — that is, for every interaction matrix and rated mask —
the SimilarityMatrix computed at load time is symmetric. -/
theorem buildSim_symmetric {U B : Nat} (M : Fin U → Fin B → ℝ)
    (R : Fin U → Fin B → Bool) (i j : Fin U) :
    buildSim M R i j = buildSim M R j i :=
  cosineSim_comm (matNormalized M R) i j

/-- A row's dot product with itself is non-negative. -/
theorem dotN_self_nonneg {U B : Nat} (N : Fin U → Fin B → ℝ) (i : Fin U) :
    0 ≤ dotN N i i :=
  Finset.sum_nonneg fun _ _ => mul_self_nonneg _

/-- Cauchy-Schwarz for the row dot products. -/
theorem dotN_sq_le {U B : Nat} (N : Fin U → Fin B → ℝ) (i j : Fin U) :
    dotN N i j ^ 2 ≤ dotN N i i * dotN N j j := by
  have h := Finset.sum_mul_sq_le_sq_mul_sq Finset.univ (N i) (N j)
  simp only [pow_two] at h ⊢
  exact h

/-- Zero-norm rows give similarity exactly 0, and every similarity value lies
in the interval from -1 to 1. -/
theorem cosineSim_zero_norm_bounds {U B : Nat} (N : Fin U → Fin B → ℝ) (i j : Fin U) :
    (normN N i = 0 ∨ normN N j = 0 → cosineSim N i j = 0) ∧
    -1 ≤ cosineSim N i j ∧ cosineSim N i j ≤ 1 := by
  constructor
  · intro h
    rw [cosineSim, if_pos h]
  · rw [cosineSim]
    split_ifs with h
    · norm_num
    · push_neg at h
      obtain ⟨hi, hj⟩ := h
      have ha : 0 ≤ dotN N i i := dotN_self_nonneg N i
      have hb : 0 ≤ dotN N j j := dotN_self_nonneg N j
      have hia : 0 < dotN N i i := by
        rcases ha.lt_or_eq with h | h
        · exact h
        · exact absurd (by rw [normN, ← h, Real.sqrt_zero]) hi
      have hjb : 0 < dotN N j j := by
        rcases hb.lt_or_eq with h | h
        · exact h
        · exact absurd (by rw [normN, ← h, Real.sqrt_zero]) hj
      have hni : 0 < normN N i := Real.sqrt_pos.mpr hia
      have hnj : 0 < normN N j := Real.sqrt_pos.mpr hjb
      have hprod : (normN N i * normN N j) ^ 2 = dotN N i i * dotN N j j := by
        rw [mul_pow, normN, normN, Real.sq_sqrt ha, Real.sq_sqrt hb]
      have habs : |dotN N i j| ≤ normN N i * normN N j := by
        apply abs_le_of_sq_le_sq _ (le_of_lt (mul_pos hni hnj))
        rw [hprod]
        exact dotN_sq_le N i j
      have hq : |dotN N i j / (normN N i * normN N j)| ≤ 1 := by
        rw [abs_div, abs_of_pos (mul_pos hni hnj), div_le_one (mul_pos hni hnj)]
        exact habs
      exact abs_le.mp hq

/-- C6: in the similarity matrix computed at load time, a pair of users either
of whose normalized rating rows has zero norm gets similarity exactly 0 — the
total real-valued model of the guard that replaces the NaN case — and no
similarity value lies outside the interval from -1 to 1. -/
theorem buildSim_zero_norm_bounds {U B : Nat} (M : Fin U → Fin B → ℝ)
    (R : Fin U → Fin B → Bool) (i j : Fin U) :
    (normN (matNormalized M R) i = 0 ∨ normN (matNormalized M R) j = 0 →
        buildSim M R i j = 0) ∧
    -1 ≤ buildSim M R i j ∧ buildSim M R i j ≤ 1 :=
  cosineSim_zero_norm_bounds (matNormalized M R) i j

/-- C6 witness: the all-unrated one-user snapshot has a zero-norm normalized
row, so its self-similarity is exactly 0 and within bounds. -/
theorem buildSim_zero_norm_bounds_witness :
    buildSim (fun (_ : Fin 1) (_ : Fin 1) => (0 : ℝ)) (fun _ _ => false) 0 0 = 0 ∧
    -1 ≤ buildSim (fun (_ : Fin 1) (_ : Fin 1) => (0 : ℝ)) (fun _ _ => false) 0 0 ∧
    buildSim (fun (_ : Fin 1) (_ : Fin 1) => (0 : ℝ)) (fun _ _ => false) 0 0 ≤ 1 := by
  have h := buildSim_zero_norm_bounds (fun (_ : Fin 1) (_ : Fin 1) => (0 : ℝ))
    (fun _ _ => false) 0 0
  exact ⟨h.1 (Or.inl (by simp [normN, dotN, matNormalized])), h.2⟩

/-- C4: every read operation — `recommend`, `validate`, `explain`, `diagnose` —
against a non-Ready service fails with `NotLoadedError`, while `status` always
succeeds and reports the current state; in particular `recommend` against the
initial state, before any load, fails with `NotLoadedError`. -/
theorem service_not_ready_gating (s : SvcState α)
    (uid k topN showSim : Nat) (minPred : α) (h : s.isReady = false) :
    svcRecommend s uid k topN minPred = .error .notLoaded ∧
    svcValidate s uid topN minPred = .error .notLoaded ∧
    svcExplain s uid topN showSim minPred = .error .notLoaded ∧
    svcDiagnose s uid = .error .notLoaded ∧
    (svcStatus s).1 = s.tag ∧
    svcRecommend (initialState (α := α)) uid k topN minPred = .error .notLoaded := by
  cases s <;>
    simp_all [svcRecommend, svcValidate, svcExplain, svcDiagnose, svcStatus,
      SvcState.isReady, SvcState.tag, initialState]

/-- C4 witness: the concrete Loading state (and the initial Empty state) reject
every read operation with `NotLoadedError` while `status` reports the state. -/
theorem service_not_ready_gating_witness :
    svcRecommend (SvcState.loading (α := ℚ) none) 1 2 3 (0 : ℚ) = .error .notLoaded ∧
    svcValidate (SvcState.loading (α := ℚ) none) 1 3 (0 : ℚ) = .error .notLoaded ∧
    svcExplain (SvcState.loading (α := ℚ) none) 1 3 4 (0 : ℚ) = .error .notLoaded ∧
    svcDiagnose (SvcState.loading (α := ℚ) none) 1 = .error .notLoaded ∧
    (svcStatus (SvcState.loading (α := ℚ) none)).1 = (SvcState.loading (α := ℚ) none).tag ∧
    svcRecommend (initialState (α := ℚ)) 1 2 3 (0 : ℚ) = .error .notLoaded :=
  service_not_ready_gating (SvcState.loading none) 1 2 3 4 0 rfl

end Bookyard
